import Mathlib

/-!
Verification of the persistence layer in `anydex/core/database.py` (class
`MarketDB`) and of `anydex/core/payment_id.py` (class `PaymentId`).

The store is embedded shallowly: each SQL table is a list of row records and
the `option` table's single `database_version` entry is an `Option String`.
An `INSERT` that would violate a primary key returns an `integrityError`
(sqlite raises `IntegrityError` before any commit); `INSERT OR IGNORE`,
`UPDATE ... WHERE`, `DELETE ... WHERE` and `SELECT ... ORDER BY` are modelled
by the corresponding list operations.  Plain operation functions describe the
state as seen through the single connection; `add_order_trace` additionally
records the sequence of durable (committed) snapshots, one per `commit()`
call, which is what a reader observes if the process stops mid-operation.
-/

/-- Module-level constant `LATEST_DB_VERSION = 5` of `database.py`. -/
def LATEST_DB_VERSION : Nat := 5

/-- Modelled from the spec: `self.LATEST_DB_VERSION` read in `check_database`
resolves to the class attribute inherited from `TrustChainDB`
(`anydex/trustchain/database.py`, outside the embedded sources).  The spec's
schema/version state machine (§4.5) is phrased over a single
`LATEST_VERSION`, so the attribute is modelled as equal to the module-level
`LATEST_DB_VERSION`. -/
def self_LATEST_DB_VERSION : Nat := LATEST_DB_VERSION

/-- Faults surfaced by the embedded store: a primary-key violation
(`sqlite3.IntegrityError`) or a failed `assert` statement. -/
inductive DBFault where
  | integrityError
  | assertionError
deriving Repr, DecidableEq

deriving instance DecidableEq for Except

/-- A composite order identifier: (trader id, order number). -/
abbrev OrderId := String × Nat

/-- One row of the `orders` table (columns in schema order). -/
structure OrderRow where
  trader_id : String
  order_number : Nat
  asset1_amount : Int
  asset1_type : String
  asset2_amount : Int
  asset2_type : String
  traded_quantity : Int
  received_quantity : Int
  timeout : Nat
  order_timestamp : Nat
  completed_timestamp : Option Nat
  is_ask : Bool
  cancelled : Bool
  verified : Bool
deriving Repr, DecidableEq

/-- One row of the `transactions` table (columns in schema order). -/
structure TransactionRow where
  trader_id : String
  transaction_id : String
  order_number : Nat
  partner_trader_id : String
  partner_order_number : Nat
  asset1_amount : Int
  asset1_type : String
  asset1_transferred : Int
  asset2_amount : Int
  asset2_type : String
  asset2_transferred : Int
  transaction_timestamp : Nat
  sent_wallet_info : Bool
  received_wallet_info : Bool
  incoming_address : String
  outgoing_address : String
  partner_incoming_address : String
  partner_outgoing_address : String
deriving Repr, DecidableEq

/-- One row of the `payments` table (columns in schema order). -/
structure PaymentRow where
  trader_id : String
  transaction_id : String
  payment_id : String
  transferred_amount : Int
  transferred_type : String
  address_from : String
  address_to : String
  timestamp : Nat
deriving Repr, DecidableEq

/-- One row of the `ticks` table (columns in schema order). -/
structure TickRow where
  trader_id : String
  order_number : Nat
  asset1_amount : Int
  asset1_type : String
  asset2_amount : Int
  asset2_type : String
  timeout : Nat
  timestamp : Nat
  is_ask : Bool
  traded : Int
  block_hash : String
deriving Repr, DecidableEq

/-- One row of the `orders_reserved_ticks` table (columns in schema order). -/
structure ReservedTickRow where
  trader_id : String
  order_number : Nat
  reserved_trader_id : String
  reserved_order_number : Nat
  quantity : Int
deriving Repr, DecidableEq

/-- The whole store: the five entity tables plus the `database_version` entry
of the `option` table (`none` when the `option` table is absent/dropped). -/
structure MarketDB where
  orders : List OrderRow
  transactions : List TransactionRow
  payments : List PaymentRow
  ticks : List TickRow
  orders_reserved_ticks : List ReservedTickRow
  option_database_version : Option String
deriving Repr, DecidableEq

/-- A freshly initialised store, as produced by executing the schema script
on an empty database. -/
def emptyDB : MarketDB :=
  { orders := [], transactions := [], payments := [], ticks := [],
    orders_reserved_ticks := [], option_database_version := some "5" }

/-- In-memory `Order` as consumed by `MarketDB.add_order`: its
`to_database()` row plus the `reserved_ticks` dict items
(counterpart `OrderId` to reserved quantity). -/
structure Order where
  row : OrderRow
  reserved_ticks : List (OrderId × Int)
deriving Repr, DecidableEq

/-- `order.order_id` of the in-memory order. -/
def Order.order_id (o : Order) : OrderId := (o.row.trader_id, o.row.order_number)

/-- In-memory `Transaction` as consumed by the transaction operations: its
`to_database()` row plus the attached payment list. -/
structure Transaction where
  row : TransactionRow
  payments : List PaymentRow
deriving Repr, DecidableEq

/-- `DELETE FROM orders_reserved_ticks WHERE trader_id = ? AND order_number = ?`
(`MarketDB.delete_reserved_ticks`). -/
def delete_reserved_ticks (order_id : OrderId) (db : MarketDB) : MarketDB :=
  { db with orders_reserved_ticks := (db.orders_reserved_ticks.filter
      (fun s => !(s.trader_id == order_id.1 && s.order_number == order_id.2))) }

/-- `INSERT INTO orders_reserved_ticks ...` + commit
(`MarketDB.add_reserved_tick`); fails on a duplicate of the primary key
(trader_id, order_number, reserved_trader_id, reserved_order_number). -/
def add_reserved_tick (order_id reserved_order_id : OrderId) (amount : Int)
    (db : MarketDB) : Except DBFault MarketDB :=
  if db.orders_reserved_ticks.any (fun s =>
      s.trader_id == order_id.1 && s.order_number == order_id.2 &&
      s.reserved_trader_id == reserved_order_id.1 &&
      s.reserved_order_number == reserved_order_id.2) then
    .error .integrityError
  else
    .ok { db with orders_reserved_ticks := db.orders_reserved_ticks ++
      [{ trader_id := order_id.1, order_number := order_id.2,
         reserved_trader_id := reserved_order_id.1,
         reserved_order_number := reserved_order_id.2, quantity := amount }] }

/-- `SELECT * FROM orders_reserved_ticks WHERE trader_id = ? AND order_number = ?`,
rows rendered as (counterpart OrderId, quantity) (`MarketDB.get_reserved_ticks`). -/
def get_reserved_ticks (db : MarketDB) (order_id : OrderId) : List (OrderId × Int) :=
  (db.orders_reserved_ticks.filter
      (fun s => s.trader_id == order_id.1 && s.order_number == order_id.2)).map
    (fun s => ((s.reserved_trader_id, s.reserved_order_number), s.quantity))

/-- `SELECT * FROM orders WHERE trader_id = ? AND order_number = ?`
(`MarketDB.get_order`): `none` when absent, otherwise the row together with
the reservation rows that `Order.from_database` receives. -/
def get_order (db : MarketDB) (order_id : OrderId) :
    Option (OrderRow × List (OrderId × Int)) :=
  match db.orders.find?
      (fun r => r.trader_id == order_id.1 && r.order_number == order_id.2) with
  | none => none
  | some r => some (r, get_reserved_ticks db order_id)

/-- The `INSERT INTO orders ...` statement plus the following `commit()`
inside `MarketDB.add_order`; fails on a duplicate (trader_id, order_number). -/
def insert_order_row (r : OrderRow) (db : MarketDB) : Except DBFault MarketDB :=
  if db.orders.any (fun s =>
      s.trader_id == r.trader_id && s.order_number == r.order_number) then
    .error .integrityError
  else
    .ok { db with orders := db.orders ++ [r] }

/-- `MarketDB.add_order`: insert the order row and commit, then insert one
reservation row (with its own commit) per entry of `order.reserved_ticks`. -/
def add_order (o : Order) (db : MarketDB) : Except DBFault MarketDB := do
  let db1 ← insert_order_row o.row db
  o.reserved_ticks.foldlM
    (fun d cpq => add_reserved_tick o.order_id cpq.1 cpq.2 d) db1

/-- Durable snapshots produced by the reservation loop of
`MarketDB.add_order`: each successful `add_reserved_tick` commits once; a
failing insert produces no further durable state. -/
def reserved_ticks_trace (order_id : OrderId) :
    List (OrderId × Int) → MarketDB → List MarketDB × Option DBFault
  | [], _ => ([], none)
  | cpq :: rest, db =>
    match add_reserved_tick order_id cpq.1 cpq.2 db with
    | .error e => ([], some e)
    | .ok db1 =>
      let t := reserved_ticks_trace order_id rest db1
      (db1 :: t.1, t.2)

/-- Durable snapshots of a whole `MarketDB.add_order` call, in commit order,
together with the fault that interrupted it (if any).  The first snapshot is
the state right after the order row's own `commit()`. -/
def add_order_trace (o : Order) (db : MarketDB) : List MarketDB × Option DBFault :=
  match insert_order_row o.row db with
  | .error e => ([], some e)
  | .ok db1 =>
    let t := reserved_ticks_trace o.order_id o.reserved_ticks db1
    (db1 :: t.1, t.2)

/-- `MarketDB.delete_order`: delete the order row, then all of its
reservation rows. -/
def delete_order (order_id : OrderId) (db : MarketDB) : MarketDB :=
  delete_reserved_ticks order_id
    { db with orders := db.orders.filter (fun r =>
        !(r.trader_id == order_id.1 && r.order_number == order_id.2)) }

/-- `MarketDB.get_next_order_number`: `SELECT MAX(order_number) FROM orders`
(`none` on an empty table), then the Python test
`if not highest_order_number[0]: return 1` (both `None` and `0` are falsy),
else the maximum plus one. -/
def get_next_order_number (db : MarketDB) : Nat :=
  let highest_order_number := (db.orders.map (fun r => r.order_number)).max?
  match highest_order_number with
  | none => 1
  | some m => if m = 0 then 1 else m + 1

/-- Timestamp comparison used by `ORDER BY timestamp ASC` on payments. -/
def payment_le (p q : PaymentRow) : Bool := p.timestamp ≤ q.timestamp

/-- `SELECT * FROM payments WHERE transaction_id = ? ORDER BY timestamp ASC`
(`MarketDB.get_payments`). -/
def get_payments (db : MarketDB) (transaction_id : String) : List PaymentRow :=
  (db.payments.filter (fun p => p.transaction_id == transaction_id)).mergeSort
    payment_le

/-- `DELETE FROM payments WHERE transaction_id = ?`
(`MarketDB.delete_payments`). -/
def delete_payments (transaction_id : String) (db : MarketDB) : MarketDB :=
  { db with payments := (db.payments.filter
      (fun p => !(p.transaction_id == transaction_id))) }

/-- `INSERT INTO payments ...` + commit (`MarketDB.add_payment`); fails on a
duplicate (trader_id, payment_id, transaction_id). -/
def add_payment (p : PaymentRow) (db : MarketDB) : Except DBFault MarketDB :=
  if db.payments.any (fun q =>
      q.trader_id == p.trader_id && q.payment_id == p.payment_id &&
      q.transaction_id == p.transaction_id) then
    .error .integrityError
  else
    .ok { db with payments := db.payments ++ [p] }

/-- The row lookup `SELECT * FROM transactions WHERE transaction_id = ?`. -/
def lookup_transaction_row (db : MarketDB) (transaction_id : String) :
    Option TransactionRow :=
  db.transactions.find? (fun r => r.transaction_id == transaction_id)

/-- `MarketDB.get_transaction`: `none` when absent, otherwise the row
together with the ordered payment list that `Transaction.from_database`
receives. -/
def get_transaction (db : MarketDB) (transaction_id : String) :
    Option (TransactionRow × List PaymentRow) :=
  match lookup_transaction_row db transaction_id with
  | none => none
  | some r => some (r, get_payments db transaction_id)

/-- The `INSERT INTO transactions ...` statement plus the following
`commit()` inside `MarketDB.add_transaction`; fails on a duplicate
transaction_id. -/
def insert_transaction_row (r : TransactionRow) (db : MarketDB) :
    Except DBFault MarketDB :=
  if db.transactions.any (fun s => s.transaction_id == r.transaction_id) then
    .error .integrityError
  else
    .ok { db with transactions := db.transactions ++ [r] }

/-- `MarketDB.add_transaction`: insert the transaction row and commit, then
delete every payment stored under that transaction id and re-insert the
payments attached to the transaction. -/
def add_transaction (t : Transaction) (db : MarketDB) : Except DBFault MarketDB := do
  let db1 ← insert_transaction_row t.row db
  let db2 := delete_payments t.row.transaction_id db1
  t.payments.foldlM (fun d p => add_payment p d) db2

/-- Effect of the `UPDATE transactions SET ...` statement of
`MarketDB.insert_or_update_transaction` on one matching row: only the two
asset amounts, the two transferred amounts and the timestamp are assigned. -/
def txn_update (r : TransactionRow) (t : Transaction) : TransactionRow :=
  { r with
    asset1_amount := t.row.asset1_amount,
    asset1_transferred := t.row.asset1_transferred,
    asset2_amount := t.row.asset2_amount,
    asset2_transferred := t.row.asset2_transferred,
    transaction_timestamp := t.row.transaction_timestamp }

/-- `MarketDB.insert_or_update_transaction`: an `INSERT OR IGNORE` of the
full row, then an `UPDATE` of the amount/transferred/timestamp columns
restricted by `WHERE transaction_id = ? AND transaction_timestamp < ?`,
then a commit.  Total: no fault is possible. -/
def insert_or_update_transaction (t : Transaction) (db : MarketDB) : MarketDB :=
  let after_ignore :=
    if db.transactions.any (fun r => r.transaction_id == t.row.transaction_id) then
      db.transactions
    else
      db.transactions ++ [t.row]
  { db with transactions := after_ignore.map (fun r =>
      if r.transaction_id == t.row.transaction_id &&
         r.transaction_timestamp < t.row.transaction_timestamp then
        txn_update r t
      else r) }

/-- The effect of the upsert's `UPDATE` statement on one row: apply the
assignment when the row passes the id filter and the strict timestamp
comparison of the `WHERE` clause (the row-level view of
`insert_or_update_transaction`). -/
def txn_step (t : Transaction) (r : TransactionRow) : TransactionRow :=
  if r.transaction_id == t.row.transaction_id &&
     r.transaction_timestamp < t.row.transaction_timestamp then
    txn_update r t
  else r

/-- `MarketDB.delete_transaction`: delete the transaction row, then all its
payments. -/
def delete_transaction (transaction_id : String) (db : MarketDB) : MarketDB :=
  delete_payments transaction_id
    { db with transactions := (db.transactions.filter
        (fun r => !(r.transaction_id == transaction_id))) }

/-- `MarketDB.add_tick`: insert one tick row + commit; fails on a duplicate
(trader_id, order_number). -/
def add_tick (t : TickRow) (db : MarketDB) : Except DBFault MarketDB :=
  if db.ticks.any (fun s =>
      s.trader_id == t.trader_id && s.order_number == t.order_number) then
    .error .integrityError
  else
    .ok { db with ticks := db.ticks ++ [t] }

/-- `MarketDB.delete_all_ticks`: `DELETE FROM ticks`. -/
def delete_all_ticks (db : MarketDB) : MarketDB := { db with ticks := [] }

/-- `MarketDB.get_ticks`: full scan of the `ticks` table. -/
def get_ticks (db : MarketDB) : List TickRow := db.ticks

/-- The upgrade script text returned by `MarketDB.get_upgrade_script` (the
same script for versions 1-4). -/
inductive UpgradeScript where
  | dropAllTables
deriving Repr, DecidableEq

/-- `MarketDB.get_upgrade_script`: a script for current versions 1, 2, 3
and 4, `None` otherwise. -/
def get_upgrade_script (current_version : Nat) : Option UpgradeScript :=
  if current_version = 1 || current_version = 2 || current_version = 3 ||
     current_version = 4 then
    some .dropAllTables
  else
    none

/-- The store left after a table has been dropped by the upgrade script:
every table gone (no rows), the `option` entry gone with its table. -/
def droppedDB : MarketDB :=
  { orders := [], transactions := [], payments := [], ticks := [],
    orders_reserved_ticks := [], option_database_version := none }

/-- Effect of `executescript` on the upgrade script: `DROP TABLE IF EXISTS`
for orders, transactions, payments, ticks, orders_reserved_ticks, option
(and the absent `traders` table). -/
def executescript_upgrade : UpgradeScript → MarketDB → MarketDB
  | .dropAllTables, _ => droppedDB

/-- Effect of `executescript` on the schema string returned by
`MarketDB.get_schema`: `CREATE TABLE IF NOT EXISTS` for the six tables
(no effect on rows of tables that exist, empty tables otherwise — the model
always keeps the table lists, so only absent tables change) and
`INSERT OR REPLACE INTO option ... ('database_version', '5')`. -/
def executescript_schema (db : MarketDB) : MarketDB :=
  { db with option_database_version := some (toString LATEST_DB_VERSION) }

/-- The `while database_version < LATEST_DB_VERSION` loop of
`MarketDB.check_database`: run the upgrade script for the current version if
one exists, increment, repeat. -/
def check_database_loop (database_version : Nat) (db : MarketDB) : MarketDB :=
  if _h : database_version < LATEST_DB_VERSION then
    check_database_loop (database_version + 1)
      (match get_upgrade_script database_version with
       | some s => executescript_upgrade s db
       | none => db)
  else db
termination_by LATEST_DB_VERSION - database_version
decreasing_by omega

/-- Python `bytes.isdigit()`: true for a non-empty byte string consisting of
ASCII digits only. -/
def bytes_isdigit (bs : List Nat) : Bool :=
  !bs.isEmpty && bs.all (fun b => 0x30 ≤ b && b ≤ 0x39)

/-- Python `int(b)` for a digits-only byte string, as an integer (the value
the `>= 0` assertion inspects). -/
def bytes_to_int (bs : List Nat) : Int :=
  bs.foldl (fun acc b => acc * 10 + (Int.ofNat b - 0x30)) 0

/-- Python `int(b)` for a digits-only byte string, as the loop counter. -/
def bytes_to_nat (bs : List Nat) : Nat :=
  bs.foldl (fun acc b => acc * 10 + (b - 0x30)) 0

/-- `MarketDB.check_database`: assert that the supplied version value is a
digits-only byte string and non-negative; if the version is below
`self.LATEST_DB_VERSION`, run the upgrade loop, re-execute the schema script
and commit; always return `LATEST_DB_VERSION`. -/
def check_database (database_version : List Nat) (db : MarketDB) :
    Except DBFault (MarketDB × Nat) :=
  if !bytes_isdigit database_version then
    .error .assertionError
  else if !(decide ((0 : Int) ≤ bytes_to_int database_version)) then
    .error .assertionError
  else
    let v := bytes_to_nat database_version
    if v < self_LATEST_DB_VERSION then
      .ok (executescript_schema (check_database_loop v db), LATEST_DB_VERSION)
    else
      .ok (db, LATEST_DB_VERSION)

/-- A Python value passed to `PaymentId.__init__`: either a `str` or a value
of any other type. -/
inductive PyValue where
  | str (s : String)
  | nonStr
deriving Repr, DecidableEq

/-- The exception raised by `PaymentId.__init__` on a non-string argument. -/
inductive PyError where
  | typeError
deriving Repr, DecidableEq

/-- A constructed `PaymentId` (class in `anydex/core/payment_id.py`). -/
structure PaymentId where
  payment_id : String
deriving Repr, DecidableEq

/-- `PaymentId.__init__`: raise `TypeError` unless the argument is a string,
otherwise store it unchanged — no emptiness or character-set check. -/
def PaymentId.init : PyValue → Except PyError PaymentId
  | .str payment_id => .ok { payment_id := payment_id }
  | .nonStr => .error .typeError

/-- A sample order row used in concrete instantiations. -/
def order_row_with (tid : String) (n : Nat) : OrderRow :=
  { trader_id := tid, order_number := n, asset1_amount := 10,
    asset1_type := "BTC", asset2_amount := 20, asset2_type := "EUR",
    traded_quantity := 0, received_quantity := 0, timeout := 3600,
    order_timestamp := 100, completed_timestamp := none, is_ask := true,
    cancelled := false, verified := true }

/-- A sample order with an empty reservation set. -/
def order_with (tid : String) (n : Nat) : Order :=
  { row := order_row_with tid n, reserved_ticks := [] }

/-- A sample transaction row (timestamp 10). -/
def txn_row_ex : TransactionRow :=
  { trader_id := "tr", transaction_id := "tx0", order_number := 1,
    partner_trader_id := "pt", partner_order_number := 2,
    asset1_amount := 100, asset1_type := "BTC", asset1_transferred := 10,
    asset2_amount := 200, asset2_type := "EUR", asset2_transferred := 20,
    transaction_timestamp := 10, sent_wallet_info := false,
    received_wallet_info := false, incoming_address := "ia",
    outgoing_address := "oa", partner_incoming_address := "pia",
    partner_outgoing_address := "poa" }

/-- A sample transaction with no attached payments. -/
def t1ex : Transaction := { row := txn_row_ex, payments := [] }

/-- A later observation of the same transaction: newer timestamp, different
amounts, and a different (non-updatable) address field. -/
def t2ex : Transaction :=
  { row := { txn_row_ex with
      asset1_amount := 99,
      asset1_transferred := 55,
      asset2_amount := 77,
      asset2_transferred := 33,
      transaction_timestamp := 20,
      incoming_address := "changed" },
    payments := [] }

/-- The store after `add_transaction t1ex` on a fresh store. -/
def db1ex : MarketDB := { emptyDB with transactions := [txn_row_ex] }

/-- A sample payment row for transaction `tx1`. -/
def pay (pid : String) (ts : Nat) : PaymentRow :=
  { trader_id := "tr", transaction_id := "tx1", payment_id := pid,
    transferred_amount := 1, transferred_type := "BTC", address_from := "f",
    address_to := "g", timestamp := ts }

/-- A transaction with payments attached in insertion order p1, p3, p2
(timestamps 1, 3, 2). -/
def t3ex : Transaction :=
  { row := { txn_row_ex with transaction_id := "tx1" },
    payments := [pay "p1" 1, pay "p3" 3, pay "p2" 2] }

/-- A store holding a stale pre-existing payment row for `tx1` but no
transaction row. -/
def pre_db : MarketDB := { emptyDB with payments := [pay "old" 9] }

/-- The store after `add_transaction t3ex pre_db`: the stale payment row is
gone, the attached payments are present in insertion order. -/
def db2ex : MarketDB :=
  { emptyDB with
    transactions := [t3ex.row],
    payments := [pay "p1" 1, pay "p3" 3, pay "p2" 2] }

/-- A sample tick row. -/
def sample_tick : TickRow :=
  { trader_id := "a", order_number := 1, asset1_amount := 1,
    asset1_type := "BTC", asset2_amount := 2, asset2_type := "EUR",
    timeout := 30, timestamp := 5, is_ask := false, traded := 0,
    block_hash := "h" }

/-- A reservation row owned by order ("a", 1). -/
def sample_res_row : ReservedTickRow :=
  { trader_id := "a", order_number := 1, reserved_trader_id := "b",
    reserved_order_number := 2, quantity := 3 }

/-- A populated legacy store (version marker 2, one row in every table;
order ("a", 1) owns one reservation row). -/
def sampleDB : MarketDB :=
  { orders := [order_row_with "a" 1], transactions := [txn_row_ex],
    payments := [pay "p0" 4], ticks := [sample_tick],
    orders_reserved_ticks := [sample_res_row],
    option_database_version := some "2" }

/-- A reservation row with no owning order row. -/
def orphan_res_row : ReservedTickRow :=
  { trader_id := "a", order_number := 1, reserved_trader_id := "b",
    reserved_order_number := 2, quantity := 5 }

/-- A store reachable through `add_reserved_tick` alone: one reservation row
whose order was never inserted. -/
def orphan_res_db : MarketDB :=
  { emptyDB with orders_reserved_ticks := [orphan_res_row] }

/-- An order carrying one reservation, for the commit-trace analysis. -/
def res_order : Order :=
  { row := order_row_with "t" 1, reserved_ticks := [(("p", 1), 5)] }

/-- The durable state right after the first `commit()` of
`add_order res_order` on a fresh store: the order row alone. -/
def partial_add_order_db : MarketDB :=
  { emptyDB with orders := [res_order.row] }

/-- The store after the {3, 7, 2} order-number example. -/
def db_numbers_example : MarketDB :=
  { emptyDB with orders := [order_row_with "x" 3, order_row_with "y" 7,
    order_row_with "z" 2] }

theorem bytes_foldl_int_nonneg (bs : List Nat) : ∀ acc : Int, 0 ≤ acc →
    (∀ b ∈ bs, (0x30 : Nat) ≤ b) →
    0 ≤ bs.foldl (fun acc b => acc * 10 + (Int.ofNat b - 0x30)) acc := by
  induction bs with
  | nil => intro acc h _; simpa using h
  | cons b rest ih =>
    intro acc h hall
    rw [List.foldl_cons]
    apply ih
    · have hb : (0x30 : Nat) ≤ b := hall b (by simp)
      have hb2 : (0x30 : Int) ≤ Int.ofNat b := Int.ofNat_le.mpr hb
      omega
    · intro x hx
      exact hall x (by simp [hx])

theorem bytes_to_int_nonneg (bs : List Nat) (h : bytes_isdigit bs = true) :
    0 ≤ bytes_to_int bs := by
  have h2 : bs.all (fun b => 0x30 ≤ b && b ≤ 0x39) = true := by
    simp only [bytes_isdigit, Bool.and_eq_true] at h
    exact h.2
  rw [List.all_eq_true] at h2
  exact bytes_foldl_int_nonneg bs 0 le_rfl (fun b hb => by
    have h3 := h2 b hb
    simp only [Bool.and_eq_true, decide_eq_true_eq] at h3
    exact h3.1)

/-- Claim C9 counterexample: `PaymentId` construction from the empty string
succeeds (the row is accepted, no error of any kind is raised), refuting the
claim that construction fails for the empty string. -/
theorem paymentId_empty_string_accepted :
    PaymentId.init (.str "") = .ok { payment_id := "" } := rfl

/-- Claim C9 (amended): `PaymentId.__init__` accepts every string, the empty
string included, storing it unchanged; it fails — with a `TypeError`, not a
`ValidationError` — exactly when the argument is not a string.  No emptiness
or character-set validation is performed. -/
theorem paymentId_init_spec :
    (∀ s : String, PaymentId.init (.str s) = .ok { payment_id := s }) ∧
    PaymentId.init .nonStr = .error .typeError :=
  ⟨fun _ => rfl, rfl⟩

/-- Claim C8: `check_database` fails its assertions exactly on version
inputs that are not digits-only (which covers non-numeric and negative
strings, since a minus sign is not a digit); on every digits-only input the
assertions pass and the check proceeds, returning `LATEST_DB_VERSION`. -/
theorem check_database_assertion_spec (bs : List Nat) (db : MarketDB) :
    (bytes_isdigit bs = false → check_database bs db = .error .assertionError) ∧
    (bytes_isdigit bs = true →
      ∃ db2, check_database bs db = .ok (db2, LATEST_DB_VERSION)) := by
  constructor
  · intro h
    simp [check_database, h]
  · intro h
    have h0 : 0 ≤ bytes_to_int bs := bytes_to_int_nonneg bs h
    by_cases hv : bytes_to_nat bs < self_LATEST_DB_VERSION
    all_goals simp [check_database, h, h0, hv]

/-- Claim C8 witness: the version byte strings b"-1" and b"6" on concrete
stores. -/
theorem check_database_assertion_spec_witness :
    check_database [0x2D, 0x31] emptyDB = .error .assertionError ∧
    (∃ db2, check_database [0x36] emptyDB = .ok (db2, LATEST_DB_VERSION)) :=
  ⟨(check_database_assertion_spec [0x2D, 0x31] emptyDB).1 (by decide),
   (check_database_assertion_spec [0x36] emptyDB).2 (by decide)⟩

/-- Claim C6: `get_next_order_number` returns 1 on an empty store and one
plus the maximum order number over all persisted orders otherwise (both
cases are `1 + max` with the empty maximum read as 0); the maximum is taken
across all traders.  In particular, after adding orders numbered 3, 7 and 2
— here owned by three different traders — it returns 8. -/
theorem get_next_order_number_spec :
    (∀ db : MarketDB, get_next_order_number db =
      1 + ((db.orders.map (fun r => r.order_number)).max?.getD 0)) ∧
    ((add_order (order_with "x" 3) emptyDB).bind
        (fun d => add_order (order_with "y" 7) d)).bind
        (fun d => add_order (order_with "z" 2) d) = .ok db_numbers_example ∧
    get_next_order_number db_numbers_example = 8 := by
  refine ⟨fun db => ?_, by decide, by decide⟩
  unfold get_next_order_number
  cases h : (db.orders.map (fun r => r.order_number)).max? with
  | none => simp
  | some m =>
    by_cases hm : m = 0
    all_goals simp [hm]
    omega

/-- Claim C10: for a digits-only version value of numeric value at least
`LATEST_DB_VERSION`, `check_database` runs no upgrade script and no schema
re-creation: the store (all five tables and the version marker) is returned
unchanged, and the call still returns `LATEST_DB_VERSION`. -/
theorem check_database_current_version_noop (bs : List Nat) (db : MarketDB)
    (hd : bytes_isdigit bs = true)
    (hv : self_LATEST_DB_VERSION ≤ bytes_to_nat bs) :
    check_database bs db = .ok (db, LATEST_DB_VERSION) := by
  have h0 : 0 ≤ bytes_to_int bs := bytes_to_int_nonneg bs hd
  simp [check_database, hd, h0, Nat.not_lt.mpr hv]

/-- Claim C10 witness: the version byte string b"5" on a store with one row
in every table leaves the store untouched. -/
theorem check_database_current_version_noop_witness :
    check_database [0x35] sampleDB = .ok (sampleDB, LATEST_DB_VERSION) :=
  check_database_current_version_noop [0x35] sampleDB (by decide) (by decide)

theorem check_database_loop_dropped : ∀ (n v : Nat) (db : MarketDB),
    v + n + 1 = LATEST_DB_VERSION → check_database_loop v db = droppedDB := by
  intro n
  induction n with
  | zero =>
    intro v db h
    have hv : v = 4 := by simp [LATEST_DB_VERSION] at h; omega
    subst hv
    unfold check_database_loop
    simp [LATEST_DB_VERSION, get_upgrade_script, executescript_upgrade]
    unfold check_database_loop
    simp [LATEST_DB_VERSION]
  | succ n ih =>
    intro v db h
    have hv : v < LATEST_DB_VERSION := by omega
    unfold check_database_loop
    rw [dif_pos hv]
    exact ih (v + 1) _ (by omega)

/-- Claim C4: for every digits-only version value below `LATEST_DB_VERSION`,
`check_database` runs the upgrade loop (whose scripts for versions 1-4 each
drop all tables), re-executes the schema creation and returns
`LATEST_DB_VERSION`; the resulting store has every entity table empty and
the persisted version marker equal to `LATEST_DB_VERSION`, whatever rows the
store held before. -/
theorem check_database_legacy_upgrade (bs : List Nat) (db : MarketDB)
    (hd : bytes_isdigit bs = true)
    (hv : bytes_to_nat bs < LATEST_DB_VERSION) :
    check_database bs db = .ok (emptyDB, LATEST_DB_VERSION) ∧
    emptyDB.orders = [] ∧ emptyDB.transactions = [] ∧
    emptyDB.payments = [] ∧ emptyDB.ticks = [] ∧
    emptyDB.orders_reserved_ticks = [] ∧
    emptyDB.option_database_version = some (toString LATEST_DB_VERSION) := by
  refine ⟨?_, rfl, rfl, rfl, rfl, rfl, by decide⟩
  have h0 : 0 ≤ bytes_to_int bs := bytes_to_int_nonneg bs hd
  have hloop : check_database_loop (bytes_to_nat bs) db = droppedDB :=
    check_database_loop_dropped (LATEST_DB_VERSION - 1 - bytes_to_nat bs)
      (bytes_to_nat bs) db (by simp [LATEST_DB_VERSION] at hv ⊢; omega)
  have hv2 : bytes_to_nat bs < self_LATEST_DB_VERSION := hv
  simp [check_database, hd, h0, hv2, hloop, executescript_schema, droppedDB,
    emptyDB]
  decide

/-- Claim C4 witness: a store reporting version 2 (byte string b"2") with a
row in every table comes out empty at version 5. -/
theorem check_database_legacy_upgrade_witness :
    check_database [0x32] sampleDB = .ok (emptyDB, LATEST_DB_VERSION) :=
  (check_database_legacy_upgrade [0x32] sampleDB (by decide) (by decide)).1

theorem delete_order_eq (oid : OrderId) (db : MarketDB) :
    delete_order oid db =
      { db with
        orders := (db.orders.filter (fun r =>
          !(r.trader_id == oid.1 && r.order_number == oid.2))),
        orders_reserved_ticks := (db.orders_reserved_ticks.filter (fun s =>
          !(s.trader_id == oid.1 && s.order_number == oid.2))) } := rfl

/-- Claim C7 (amended): `delete_order` removes the order row and every
reservation row stored under the id — afterwards `get_order` is absent and
`get_reserved_ticks` returns the empty list, for every store (including
orders with reservations).  It raises no error on a non-existent id, and it
is a full no-op exactly when the id has no order row and no reservation
rows; when reservation rows exist under an id without an order row, they are
still deleted. -/
theorem delete_order_spec (db : MarketDB) (oid : OrderId) :
    get_order (delete_order oid db) oid = none ∧
    get_reserved_ticks (delete_order oid db) oid = [] ∧
    ((get_order db oid = none ∧ get_reserved_ticks db oid = []) →
      delete_order oid db = db) := by
  refine ⟨?_, ?_, ?_⟩
  · have hnone : (delete_order oid db).orders.find? (fun r =>
        r.trader_id == oid.1 && r.order_number == oid.2) = none := by
      show (db.orders.filter (fun r =>
          !(r.trader_id == oid.1 && r.order_number == oid.2))).find? (fun r =>
          r.trader_id == oid.1 && r.order_number == oid.2) = none
      rw [List.find?_eq_none]
      intro x hx hc
      rw [List.mem_filter] at hx
      rw [hc] at hx
      simp at hx
    unfold get_order
    rw [hnone]
  · show ((db.orders_reserved_ticks.filter (fun s =>
        !(s.trader_id == oid.1 && s.order_number == oid.2))).filter (fun s =>
        s.trader_id == oid.1 && s.order_number == oid.2)).map (fun s =>
        ((s.reserved_trader_id, s.reserved_order_number), s.quantity)) = []
    have hnil : (db.orders_reserved_ticks.filter (fun s =>
        !(s.trader_id == oid.1 && s.order_number == oid.2))).filter (fun s =>
        s.trader_id == oid.1 && s.order_number == oid.2) = [] := by
      rw [List.filter_eq_nil_iff]
      intro x hx hc
      rw [List.mem_filter] at hx
      rw [hc] at hx
      simp at hx
    rw [hnil]
    rfl
  · rintro ⟨h1, h2⟩
    have hf : db.orders.find? (fun r =>
        r.trader_id == oid.1 && r.order_number == oid.2) = none := by
      unfold get_order at h1
      cases hfind : db.orders.find? (fun r =>
          r.trader_id == oid.1 && r.order_number == oid.2) with
      | none => rfl
      | some r => rw [hfind] at h1; simp at h1
    have h2f : db.orders_reserved_ticks.filter (fun s =>
        s.trader_id == oid.1 && s.order_number == oid.2) = [] := by
      unfold get_reserved_ticks at h2
      exact List.map_eq_nil_iff.mp h2
    have ho : db.orders.filter (fun r =>
        !(r.trader_id == oid.1 && r.order_number == oid.2)) = db.orders := by
      rw [List.filter_eq_self]
      intro a ha
      have ha2 := List.find?_eq_none.mp hf a ha
      simp at ha2 ⊢
      tauto
    have hr : db.orders_reserved_ticks.filter (fun s =>
        !(s.trader_id == oid.1 && s.order_number == oid.2)) =
        db.orders_reserved_ticks := by
      rw [List.filter_eq_self]
      intro a ha
      have ha2 := List.filter_eq_nil_iff.mp h2f a ha
      simp at ha2 ⊢
      tauto
    rw [delete_order_eq, ho, hr]

/-- Claim C7 counterexample: a reservation row stored under order id
("a", 1) with no order row — a state reachable through the public
`add_reserved_tick` operation alone.  The id is non-existent
(`get_order` returns absent), yet `delete_order` is not a no-op: it deletes
the reservation row. -/
theorem delete_order_nonexistent_changes_state :
    add_reserved_tick ("a", 1) ("b", 2) 5 emptyDB = .ok orphan_res_db ∧
    get_order orphan_res_db ("a", 1) = none ∧
    delete_order ("a", 1) orphan_res_db ≠ orphan_res_db := by
  decide

/-- Claim C7 witness: concrete instances — deleting order ("a", 1) of a
populated store (where it owns a reservation row) leaves no order row and no
reservation rows; deleting an id absent from a fresh store is a full no-op. -/
theorem delete_order_spec_witness :
    get_order (delete_order ("a", 1) sampleDB) ("a", 1) = none ∧
    get_reserved_ticks (delete_order ("a", 1) sampleDB) ("a", 1) = [] ∧
    delete_order ("q", 9) emptyDB = emptyDB :=
  ⟨(delete_order_spec sampleDB ("a", 1)).1,
   (delete_order_spec sampleDB ("a", 1)).2.1,
   (delete_order_spec emptyDB ("q", 9)).2.2 ⟨by decide, by decide⟩⟩

theorem insert_order_row_ok (r : OrderRow) (db db1 : MarketDB)
    (h : insert_order_row r db = .ok db1) :
    db1 = { db with orders := db.orders ++ [r] } := by
  cases hg : db.orders.any (fun s =>
      s.trader_id == r.trader_id && s.order_number == r.order_number) with
  | false =>
    unfold insert_order_row at h
    rw [if_neg (by simp [hg])] at h
    cases h
    rfl
  | true =>
    unfold insert_order_row at h
    rw [if_pos hg] at h
    cases h

theorem insert_transaction_row_ok (r : TransactionRow) (db db1 : MarketDB)
    (h : insert_transaction_row r db = .ok db1) :
    db1 = { db with transactions := db.transactions ++ [r] } ∧
    db.transactions.any (fun s => s.transaction_id == r.transaction_id) = false := by
  cases hg : db.transactions.any (fun s => s.transaction_id == r.transaction_id) with
  | false =>
    unfold insert_transaction_row at h
    rw [if_neg (by simp [hg])] at h
    cases h
    exact ⟨rfl, rfl⟩
  | true =>
    unfold insert_transaction_row at h
    rw [if_pos hg] at h
    cases h

theorem add_payment_ok (p : PaymentRow) (db db1 : MarketDB)
    (h : add_payment p db = .ok db1) :
    db1 = { db with payments := db.payments ++ [p] } := by
  cases hg : db.payments.any (fun q =>
      q.trader_id == p.trader_id && q.payment_id == p.payment_id &&
      q.transaction_id == p.transaction_id) with
  | false =>
    unfold add_payment at h
    rw [if_neg (by simp [hg])] at h
    cases h
    rfl
  | true =>
    unfold add_payment at h
    rw [if_pos hg] at h
    cases h

theorem foldlM_add_payment_ok : ∀ (ps : List PaymentRow) (d d2 : MarketDB),
    ps.foldlM (fun x p => add_payment p x) d = .ok d2 →
    d2 = { d with payments := d.payments ++ ps } := by
  intro ps
  induction ps with
  | nil =>
    intro d d2 h
    rw [List.foldlM_nil] at h
    cases h
    simp
  | cons p rest ih =>
    intro d d2 h
    rw [List.foldlM_cons] at h
    cases hp : add_payment p d with
    | error e =>
      rw [hp] at h
      exact Except.noConfusion h
    | ok d1 =>
      rw [hp] at h
      have hd1 := add_payment_ok p d d1 hp
      have hd2 := ih d1 d2 h
      subst hd1
      rw [hd2]
      simp

theorem reserved_trace_getLast (oid : OrderId) :
    ∀ (ps : List (OrderId × Int)) (d dbf : MarketDB),
    ps.foldlM (fun x cpq => add_reserved_tick oid cpq.1 cpq.2 x) d = .ok dbf →
    (d :: (reserved_ticks_trace oid ps d).1).getLast? = some dbf := by
  intro ps
  induction ps with
  | nil =>
    intro d dbf h
    rw [List.foldlM_nil] at h
    cases h
    rfl
  | cons cpq rest ih =>
    intro d dbf h
    rw [List.foldlM_cons] at h
    cases htick : add_reserved_tick oid cpq.1 cpq.2 d with
    | error e =>
      rw [htick] at h
      exact Except.noConfusion h
    | ok d1 =>
      rw [htick] at h
      unfold reserved_ticks_trace
      rw [htick]
      rw [List.getLast?_cons_cons]
      exact ih d1 dbf h

/-- Claim C2 (amended): `add_order` is not one all-or-nothing unit of work.
It durably commits the order row by itself first — the first committed
snapshot extends the prior durable state with just the order row and none of
the order's reservation rows — and then commits each reservation row
separately; only when every reservation insert succeeds does the last
committed snapshot equal `add_order`'s final state.  A failure during
reservation insertion therefore strands the order row (and any earlier
reservation rows) durably, rather than restoring the prior durable state. -/
theorem add_order_commit_states (o : Order) (db db1 : MarketDB)
    (h : insert_order_row o.row db = .ok db1) :
    (add_order_trace o db).1.head? = some db1 ∧
    db1.orders = db.orders ++ [o.row] ∧
    db1.orders_reserved_ticks = db.orders_reserved_ticks ∧
    (∀ dbf, add_order o db = .ok dbf →
      (add_order_trace o db).1.getLast? = some dbf) := by
  have hdb1 := insert_order_row_ok o.row db db1 h
  refine ⟨?_, by rw [hdb1], by rw [hdb1], ?_⟩
  · unfold add_order_trace
    rw [h]
    rfl
  · intro dbf hf
    unfold add_order at hf
    rw [h] at hf
    unfold add_order_trace
    rw [h]
    exact reserved_trace_getLast o.order_id o.reserved_ticks db1 dbf hf

/-- Claim C2 counterexample: on a fresh store, `add_order` of an order with
one reservation produces an intermediate durable snapshot (the very first
commit) that contains the order row but no reservation row — a state equal
neither to the prior durable state nor to the operation's final state, so
the partial state the claim declares unobservable is durably observable. -/
theorem add_order_partial_state_observable :
    res_order.reserved_ticks ≠ [] ∧
    (add_order_trace res_order emptyDB).1.head? = some partial_add_order_db ∧
    partial_add_order_db.orders = [res_order.row] ∧
    get_reserved_ticks partial_add_order_db res_order.order_id = [] ∧
    partial_add_order_db ≠ emptyDB ∧
    add_order res_order emptyDB ≠ .ok partial_add_order_db := by
  decide

/-- Claim C2 witness: the commit trace of `add_order res_order` on a fresh
store starts at the order-row-only snapshot and ends at the final state. -/
theorem add_order_commit_states_witness :
    (add_order_trace res_order emptyDB).1.head? = some partial_add_order_db ∧
    partial_add_order_db.orders = emptyDB.orders ++ [res_order.row] ∧
    partial_add_order_db.orders_reserved_ticks =
      emptyDB.orders_reserved_ticks ∧
    (add_order_trace res_order emptyDB).1.getLast? =
      some { partial_add_order_db with orders_reserved_ticks := [⟨"t", 1, "p", 1, 5⟩] } := by
  have hins : insert_order_row res_order.row emptyDB = .ok partial_add_order_db := by
    decide
  obtain ⟨h1, h2, h3, h4⟩ :=
    add_order_commit_states res_order emptyDB partial_add_order_db hins
  exact ⟨h1, h2, h3, h4 _ (by decide)⟩

theorem add_transaction_ok_state (t : Transaction) (db db2 : MarketDB)
    (h : add_transaction t db = .ok db2) :
    db2 = { db with
      transactions := db.transactions ++ [t.row],
      payments := ((db.payments.filter (fun p =>
        !(p.transaction_id == t.row.transaction_id))) ++ t.payments) } ∧
    db.transactions.any (fun s => s.transaction_id == t.row.transaction_id) =
      false := by
  unfold add_transaction at h
  cases hins : insert_transaction_row t.row db with
  | error e =>
    rw [hins] at h
    exact Except.noConfusion h
  | ok dbA =>
    rw [hins] at h
    obtain ⟨hA, hg⟩ := insert_transaction_row_ok t.row db dbA hins
    have h2 := foldlM_add_payment_ok t.payments
      (delete_payments t.row.transaction_id dbA) db2 h
    subst hA
    exact ⟨h2, hg⟩

theorem txn_step_keeps_id (t : Transaction) (x : TransactionRow) :
    ((if x.transaction_id == t.row.transaction_id &&
      x.transaction_timestamp < t.row.transaction_timestamp then
      txn_update x t else x) : TransactionRow).transaction_id =
      x.transaction_id := by
  split <;> rfl

theorem txn_step_idem (t : Transaction) (x : TransactionRow) :
    (if ((if x.transaction_id == t.row.transaction_id &&
          x.transaction_timestamp < t.row.transaction_timestamp then
          txn_update x t else x) : TransactionRow).transaction_id ==
            t.row.transaction_id &&
        ((if x.transaction_id == t.row.transaction_id &&
          x.transaction_timestamp < t.row.transaction_timestamp then
          txn_update x t else x) : TransactionRow).transaction_timestamp <
            t.row.transaction_timestamp then
      txn_update (if x.transaction_id == t.row.transaction_id &&
        x.transaction_timestamp < t.row.transaction_timestamp then
        txn_update x t else x) t
    else
      (if x.transaction_id == t.row.transaction_id &&
        x.transaction_timestamp < t.row.transaction_timestamp then
        txn_update x t else x)) =
    (if x.transaction_id == t.row.transaction_id &&
      x.transaction_timestamp < t.row.transaction_timestamp then
      txn_update x t else x) := by
  by_cases h2 : (x.transaction_id == t.row.transaction_id &&
      x.transaction_timestamp < t.row.transaction_timestamp) = true
  · rw [if_pos h2]
    rw [if_neg (by simp [txn_update])]
  · rw [if_neg h2, if_neg h2]

theorem insert_or_update_transaction_exists (t : Transaction) (db : MarketDB)
    (hany : db.transactions.any (fun r =>
      r.transaction_id == t.row.transaction_id) = true) :
    insert_or_update_transaction t db =
      { db with transactions := (db.transactions.map (fun r =>
          if r.transaction_id == t.row.transaction_id &&
             r.transaction_timestamp < t.row.transaction_timestamp then
            txn_update r t
          else r)) } := by
  show { db with transactions := ((if db.transactions.any (fun r =>
      r.transaction_id == t.row.transaction_id) then db.transactions
      else db.transactions ++ [t.row]).map (fun (r : TransactionRow) =>
        if r.transaction_id == t.row.transaction_id &&
           r.transaction_timestamp < t.row.transaction_timestamp then
          txn_update r t
        else r)) } = _
  rw [if_pos hany]

theorem insert_or_update_transaction_absent (t : Transaction) (db : MarketDB)
    (hany : db.transactions.any (fun r =>
      r.transaction_id == t.row.transaction_id) = false) :
    insert_or_update_transaction t db =
      { db with transactions := ((db.transactions ++ [t.row]).map (fun r =>
          if r.transaction_id == t.row.transaction_id &&
             r.transaction_timestamp < t.row.transaction_timestamp then
            txn_update r t
          else r)) } := by
  show { db with transactions := ((if db.transactions.any (fun r =>
      r.transaction_id == t.row.transaction_id) then db.transactions
      else db.transactions ++ [t.row]).map (fun (r : TransactionRow) =>
        if r.transaction_id == t.row.transaction_id &&
           r.transaction_timestamp < t.row.transaction_timestamp then
          txn_update r t
        else r)) } = _
  rw [if_neg (by simp [hany])]

/-- Claim C1: after `add_transaction t1`, an `insert_or_update_transaction t2`
with the same transaction id leaves the stored row equal to `t1`'s row with
only the two asset amounts, the two transferred amounts and the timestamp
replaced by `t2`'s — and performs that update if and only if `t2`'s
timestamp is strictly greater than the stored one; otherwise the stored row
stays exactly `t1`'s (a silent no-op, no error).  The payment table and the
rest of the store are untouched either way. -/
theorem insert_or_update_after_add (db db1 : MarketDB) (t1 t2 : Transaction)
    (hid : t2.row.transaction_id = t1.row.transaction_id)
    (hadd : add_transaction t1 db = .ok db1) :
    insert_or_update_transaction t2 db1 =
      { db1 with transactions := (db.transactions ++
        [if t1.row.transaction_timestamp < t2.row.transaction_timestamp
         then txn_update t1.row t2 else t1.row]) } ∧
    lookup_transaction_row (insert_or_update_transaction t2 db1)
        t1.row.transaction_id =
      some (if t1.row.transaction_timestamp < t2.row.transaction_timestamp
            then txn_update t1.row t2 else t1.row) ∧
    (insert_or_update_transaction t2 db1).payments = db1.payments := by
  obtain ⟨hdb1, hg⟩ := add_transaction_ok_state t1 db db1 hadd
  have htr : db1.transactions = db.transactions ++ [t1.row] := by rw [hdb1]
  have hdbrows : ∀ r ∈ db.transactions,
      (r.transaction_id == t1.row.transaction_id) = false := by
    intro r hr
    rw [List.any_eq_false] at hg
    have hneg := hg r hr
    simpa using hneg
  have hany : db1.transactions.any (fun r =>
      r.transaction_id == t2.row.transaction_id) = true := by
    rw [htr, List.any_append]
    simp [hid]
  have hmap1 : db.transactions.map (fun r =>
      if r.transaction_id == t2.row.transaction_id &&
         r.transaction_timestamp < t2.row.transaction_timestamp then
        txn_update r t2
      else r) = db.transactions := by
    conv_rhs => rw [← List.map_id db.transactions]
    refine List.map_congr_left (fun a ha => ?_)
    rw [hid]
    rw [if_neg (by simp [hdbrows a ha])]
    rfl
  have hmap2 : [t1.row].map (fun r =>
      if r.transaction_id == t2.row.transaction_id &&
         r.transaction_timestamp < t2.row.transaction_timestamp then
        txn_update r t2
      else r) =
      [if t1.row.transaction_timestamp < t2.row.transaction_timestamp
       then txn_update t1.row t2 else t1.row] := by
    simp [hid]
  have main : insert_or_update_transaction t2 db1 =
      { db1 with transactions := (db.transactions ++
        [if t1.row.transaction_timestamp < t2.row.transaction_timestamp
         then txn_update t1.row t2 else t1.row]) } := by
    rw [insert_or_update_transaction_exists t2 db1 hany, htr,
      List.map_append, hmap1, hmap2]
  refine ⟨main, ?_, by rw [main]⟩
  rw [main]
  have hXid : ((if t1.row.transaction_timestamp <
      t2.row.transaction_timestamp then txn_update t1.row t2 else t1.row) :
      TransactionRow).transaction_id = t1.row.transaction_id := by
    split <;> rfl
  unfold lookup_transaction_row
  show ((db.transactions ++
      [if t1.row.transaction_timestamp < t2.row.transaction_timestamp
       then txn_update t1.row t2 else t1.row]).find? (fun r =>
      r.transaction_id == t1.row.transaction_id)) = _
  rw [List.find?_append]
  have hnone : db.transactions.find? (fun r =>
      r.transaction_id == t1.row.transaction_id) = none :=
    List.find?_eq_none.mpr (fun x hx => by simp [hdbrows x hx])
  rw [hnone]
  simp [List.find?_cons, hXid]

/-- Claim C1 witness: `t2ex` carries a newer timestamp than `t1ex`; after
`add_transaction t1ex` on a fresh store, the upsert updates the amount and
timestamp columns to `t2ex`'s values while keeping `t1ex`'s address fields. -/
theorem insert_or_update_after_add_witness :
    lookup_transaction_row (insert_or_update_transaction t2ex db1ex)
        t1ex.row.transaction_id =
      some (if t1ex.row.transaction_timestamp <
            t2ex.row.transaction_timestamp
            then txn_update t1ex.row t2ex else t1ex.row) :=
  (insert_or_update_after_add emptyDB db1ex t1ex t2ex rfl (by decide)).2.1

theorem txn_step_id (t : Transaction) (x : TransactionRow) :
    (txn_step t x).transaction_id = x.transaction_id :=
  txn_step_keeps_id t x

theorem txn_step_step (t : Transaction) (x : TransactionRow) :
    txn_step t (txn_step t x) = txn_step t x :=
  txn_step_idem t x

theorem insert_or_update_exists_step (t : Transaction) (db : MarketDB)
    (hany : db.transactions.any (fun r =>
      r.transaction_id == t.row.transaction_id) = true) :
    insert_or_update_transaction t db =
      { db with transactions := (db.transactions.map (txn_step t)) } :=
  insert_or_update_transaction_exists t db hany

theorem insert_or_update_absent_step (t : Transaction) (db : MarketDB)
    (hany : db.transactions.any (fun r =>
      r.transaction_id == t.row.transaction_id) = false) :
    insert_or_update_transaction t db =
      { db with transactions := ((db.transactions ++ [t.row]).map (txn_step t)) } :=
  insert_or_update_transaction_absent t db hany

/-- Claim C5: `insert_or_update_transaction` is an idempotent upsert: when
no row with the transaction id exists it inserts the full row; when one
exists the insert is ignored and the operation reports no error (it is a
total function), unlike `add_transaction`, which fails with a primary-key
`integrityError` on an existing id; and calling it twice in a row with an
identical transaction leaves the store after the second call identical to
the store after the first. -/
theorem insert_or_update_transaction_idempotent (t : Transaction)
    (db : MarketDB) :
    (lookup_transaction_row db t.row.transaction_id = none →
      lookup_transaction_row (insert_or_update_transaction t db)
        t.row.transaction_id = some t.row) ∧
    (lookup_transaction_row db t.row.transaction_id ≠ none →
      add_transaction t db = .error .integrityError) ∧
    insert_or_update_transaction t (insert_or_update_transaction t db) =
      insert_or_update_transaction t db := by
  refine ⟨?_, ?_, ?_⟩
  · intro habs
    have hfind : db.transactions.find? (fun r =>
        r.transaction_id == t.row.transaction_id) = none := habs
    have hany : db.transactions.any (fun r =>
        r.transaction_id == t.row.transaction_id) = false := by
      rw [List.any_eq_false]
      exact List.find?_eq_none.mp hfind
    rw [insert_or_update_absent_step t db hany]
    show ((db.transactions ++ [t.row]).map (txn_step t)).find? (fun r =>
        r.transaction_id == t.row.transaction_id) = some t.row
    rw [List.map_append, List.find?_append]
    have h1 : (db.transactions.map (txn_step t)).find? (fun r =>
        r.transaction_id == t.row.transaction_id) = none := by
      rw [List.find?_eq_none]
      intro y hy
      rw [List.mem_map] at hy
      obtain ⟨x, hx, rfl⟩ := hy
      have hxid := List.find?_eq_none.mp hfind x hx
      simpa [txn_step_id] using hxid
    rw [h1]
    have hft : txn_step t t.row = t.row := by
      unfold txn_step
      rw [if_neg (by simp)]
    simp [hft]
  · intro hpres
    have hany : db.transactions.any (fun r =>
        r.transaction_id == t.row.transaction_id) = true := by
      cases hfind : db.transactions.find? (fun r =>
          r.transaction_id == t.row.transaction_id) with
      | none => exact absurd hfind hpres
      | some r =>
        rw [List.any_eq_true]
        have hp := List.find?_some hfind
        exact ⟨r, List.mem_of_find?_eq_some hfind, hp⟩
    unfold add_transaction insert_transaction_row
    rw [if_pos hany]
    rfl
  · by_cases hany : db.transactions.any (fun r =>
        r.transaction_id == t.row.transaction_id) = true
    · rw [insert_or_update_exists_step t db hany]
      have hany2 : ((db.transactions.map (txn_step t)).any (fun r =>
          r.transaction_id == t.row.transaction_id)) = true := by
        rw [List.any_eq_true] at hany ⊢
        obtain ⟨r, hr, hpr⟩ := hany
        exact ⟨txn_step t r, List.mem_map_of_mem _ hr,
          by simpa [txn_step_id] using hpr⟩
      rw [insert_or_update_exists_step t
        { db with transactions := (db.transactions.map (txn_step t)) } hany2]
      show { db with transactions :=
          ((db.transactions.map (txn_step t)).map (txn_step t)) } =
        { db with transactions := (db.transactions.map (txn_step t)) }
      have hmm : (db.transactions.map (txn_step t)).map (txn_step t) =
          db.transactions.map (txn_step t) := by
        rw [List.map_map]
        exact List.map_congr_left (fun a _ => txn_step_step t a)
      rw [hmm]
    · have hanyf : db.transactions.any (fun r =>
          r.transaction_id == t.row.transaction_id) = false := by
        simpa using hany
      rw [insert_or_update_absent_step t db hanyf]
      have hany2 : (((db.transactions ++ [t.row]).map (txn_step t)).any (fun r =>
          r.transaction_id == t.row.transaction_id)) = true := by
        rw [List.any_eq_true]
        refine ⟨txn_step t t.row, List.mem_map_of_mem _ (by simp), ?_⟩
        simp [txn_step_id]
      rw [insert_or_update_exists_step t
        { db with transactions :=
          ((db.transactions ++ [t.row]).map (txn_step t)) } hany2]
      show { db with transactions :=
          (((db.transactions ++ [t.row]).map (txn_step t)).map (txn_step t)) } =
        { db with transactions := ((db.transactions ++ [t.row]).map (txn_step t)) }
      have hmm : ((db.transactions ++ [t.row]).map (txn_step t)).map (txn_step t) =
          (db.transactions ++ [t.row]).map (txn_step t) := by
        rw [List.map_map]
        exact List.map_congr_left (fun a _ => txn_step_step t a)
      rw [hmm]

/-- Claim C5 witness: inserting `t1ex` into a fresh store via the upsert
stores its row; `add_transaction` on the resulting store fails with a
primary-key error; the upsert applied twice equals the upsert applied once. -/
theorem insert_or_update_transaction_idempotent_witness :
    lookup_transaction_row (insert_or_update_transaction t1ex emptyDB)
        t1ex.row.transaction_id = some t1ex.row ∧
    add_transaction t1ex db1ex = .error .integrityError ∧
    insert_or_update_transaction t1ex
        (insert_or_update_transaction t1ex emptyDB) =
      insert_or_update_transaction t1ex emptyDB :=
  ⟨(insert_or_update_transaction_idempotent t1ex emptyDB).1 rfl,
   (insert_or_update_transaction_idempotent t1ex db1ex).2.1 (by decide),
   (insert_or_update_transaction_idempotent t1ex emptyDB).2.2⟩

/-- Claim C3: for a transaction whose id is not yet stored (the insert
succeeds) and whose attached payments carry its id, `add_transaction`
unconditionally replaces the payment set: every pre-existing payment row
under that id is deleted and exactly the attached payments are stored, so
`get_payments` afterwards returns a permutation of the attached payments,
ordered by timestamp ascending regardless of insertion order. -/
theorem add_transaction_replaces_payments (t : Transaction) (db db2 : MarketDB)
    (hp : ∀ p ∈ t.payments, p.transaction_id = t.row.transaction_id)
    (h : add_transaction t db = .ok db2) :
    (get_payments db2 t.row.transaction_id).Perm t.payments ∧
    List.Pairwise (fun p q : PaymentRow => p.timestamp ≤ q.timestamp)
      (get_payments db2 t.row.transaction_id) := by
  obtain ⟨hdb2, _⟩ := add_transaction_ok_state t db db2 h
  have hpay : db2.payments =
      ((db.payments.filter (fun p =>
        !(p.transaction_id == t.row.transaction_id))) ++ t.payments) := by
    rw [hdb2]
  have hfilter : db2.payments.filter (fun p =>
      p.transaction_id == t.row.transaction_id) = t.payments := by
    rw [hpay, List.filter_append]
    have h1 : (db.payments.filter (fun p =>
        !(p.transaction_id == t.row.transaction_id))).filter (fun p =>
        p.transaction_id == t.row.transaction_id) = [] := by
      rw [List.filter_eq_nil_iff]
      intro x hx hc
      rw [List.mem_filter] at hx
      rw [hc] at hx
      simp at hx
    have h2 : t.payments.filter (fun p =>
        p.transaction_id == t.row.transaction_id) = t.payments := by
      rw [List.filter_eq_self]
      intro a ha
      simp [hp a ha]
    rw [h1, h2]
    rfl
  have hget : get_payments db2 t.row.transaction_id =
      (t.payments.mergeSort payment_le) := by
    unfold get_payments
    rw [hfilter]
  constructor
  · rw [hget]
    exact List.mergeSort_perm t.payments payment_le
  · rw [hget]
    have htrans : ∀ a b c : PaymentRow, payment_le a b = true →
        payment_le b c = true → payment_le a c = true := by
      intro a b c hab hbc
      simp [payment_le] at hab hbc ⊢
      omega
    have htotal : ∀ a b : PaymentRow,
        (payment_le a b || payment_le b a) = true := by
      intro a b
      simp [payment_le]
      omega
    have hs := List.sorted_mergeSort htrans htotal t.payments
    exact hs.imp (fun hab => by simpa [payment_le] using hab)

/-- Claim C3 witness: transaction `t3ex` (payments p1, p3, p2 with
timestamps 1, 3, 2, attached in that order) added to a store holding a stale
payment row for the same id: the result is exactly the attached payments in
the order p1, p2, p3. -/
theorem add_transaction_replaces_payments_witness :
    (get_payments db2ex t3ex.row.transaction_id).Perm t3ex.payments ∧
    List.Pairwise (fun p q : PaymentRow => p.timestamp ≤ q.timestamp)
      (get_payments db2ex t3ex.row.transaction_id) :=
  add_transaction_replaces_payments t3ex pre_db db2ex (by decide) (by decide)
